import Mathlib

/-!
Shallow embedding of the password-generator repository.  The repository has two
modules that both implement generators: `src/password_generators.py` (embedded
here with the prefix `pg`) and `src/dasshboard.py` (prefix `db`).  Strings are
modelled as `List Char` restricted to ASCII, matching the character data the
program manipulates.  Randomness is modelled by an injected stream
`s : Nat → Nat`: the k-th random draw of a call takes `s k` reduced modulo the
size of the collection drawn from, which covers every behaviour of Python's
`random.choice` / `random.choices` (independent uniform indices) and, via the
selection procedure `sampleGo`, of `random.sample`.  A Python exception is
modelled by `Except.error` with a `GenError` constructor named after the spec's
error taxonomy and tied to the concrete `raise` site it embeds.
-/

/-- Python `string.ascii_uppercase`. -/
def ascii_uppercase : List Char := "ABCDEFGHIJKLMNOPQRSTUVWXYZ".toList

/-- Python `string.ascii_lowercase`. -/
def ascii_lowercase : List Char := "abcdefghijklmnopqrstuvwxyz".toList

/-- Python `string.digits`. -/
def digitsList : List Char := "0123456789".toList

/-- Python `string.punctuation`: the 32 ASCII punctuation characters, i.e. the
code points 33-47, 58-64, 91-96 and 123-126. -/
def punctuation : List Char :=
  (List.range 128).filterMap (fun n =>
    if (33 ≤ n ∧ n ≤ 47) ∨ (58 ≤ n ∧ n ≤ 64) ∨ (91 ≤ n ∧ n ≤ 96) ∨ (123 ≤ n ∧ n ≤ 126)
    then some (Char.ofNat n) else none)

/-- The string `"O0l1I"` of `password_generators.py` line 42 (visually similar
characters removed by `exclude_similar`). -/
def similar_chars : List Char := ['O', '0', 'l', '1', 'I']

/-- The string `"Il1O0"` of `dasshboard.py` line 27 (same five characters,
iterated in this order by the `replace` loop). -/
def dashSimilar : List Char := ['I', 'l', '1', 'O', '0']

/-- Error outcomes of the generators, one constructor per `raise` site:
`configError` is the `ValueError` at `dasshboard.py` line 31 (empty pool),
`insufficientPoolError` the `ValueError` at `password_generators.py` line 51 /
`dasshboard.py` line 34 (no-repeat length exceeds pool),
`insufficientVocabularyError` the `ValueError` Python's `random.sample` raises
at `dasshboard.py` line 54 when asked for more words than the vocabulary holds,
`pinExhaustionError` the `ValueError` at `password_generators.py` line 140, and
`indexError` the `IndexError` Python's `random.choice` raises on an empty
sequence. -/
inductive GenError where
  | configError
  | insufficientPoolError
  | insufficientVocabularyError
  | pinExhaustionError
  | indexError
deriving DecidableEq

/-- Configuration of a random-password generator: the constructor arguments of
`RandomPasswordGenerator` in `password_generators.py` (the `dasshboard.py`
class takes the same flags under the names `include_upper`, `include_lower`,
`include_digits`, `include_symbols`, `exclude_similar`, `no_repeated`). -/
structure RandomConfig where
  length : Nat
  include_uppercase : Bool
  include_lowercase : Bool
  include_numbers : Bool
  include_symbols : Bool
  exclude_similar : Bool
  no_repeated_characters : Bool
deriving DecidableEq

/-- The class-concatenation step shared by both pool builders: uppercase, then
lowercase, then digits, then symbols (`password_generators.py` lines 30-38,
`dasshboard.py` lines 20-24). -/
def poolBase (u l d s : Bool) : List Char :=
  (if u then ascii_uppercase else [])
    ++ (if l then ascii_lowercase else [])
    ++ (if d then digitsList else [])
    ++ (if s then punctuation else [])

/-- Pool construction of `RandomPasswordGenerator.__init__` in
`password_generators.py` lines 30-43: concatenate the enabled classes, then, if
`exclude_similar`, keep only the characters not in `"O0l1I"`. -/
def pgPool (u l d s e : Bool) : List Char :=
  if e then (poolBase u l d s).filter (fun c => !(similar_chars.contains c))
  else poolBase u l d s

/-- The pool `self.characters` a `password_generators.py` generator holds for a
given configuration. -/
def pgCharacters (cfg : RandomConfig) : List Char :=
  pgPool cfg.include_uppercase cfg.include_lowercase cfg.include_numbers
    cfg.include_symbols cfg.exclude_similar

/-- Pool construction of `RandomPasswordGenerator.generate` in `dasshboard.py`
lines 20-28: concatenate the enabled classes, then, if `exclude_similar`, run
`chars = chars.replace(char, "")` for each `char` in `"Il1O0"` in turn. -/
def dbChars (u l d s e : Bool) : List Char :=
  if e then dashSimilar.foldl (fun acc ch => acc.filter (fun c => c != ch)) (poolBase u l d s)
  else poolBase u l d s

/-- Python's `random.sample(pool, k)` selection loop, modelled as: at step `i`
pick index `s i` modulo the remaining pool size, emit that element and remove
it from the pool.  `d` is a default never reached while `k` is at most the pool
size. -/
def sampleGo {α : Type} (d : α) : List α → Nat → (Nat → Nat) → Nat → List α
  | _, 0, _, _ => []
  | pool, k + 1, s, i =>
    let idx := s i % pool.length
    pool.getD idx d :: sampleGo d (pool.eraseIdx idx) k s (i + 1)

/-- `RandomPasswordGenerator.generate` of `password_generators.py` lines 45-54:
with `no_repeated_characters`, raise if the length exceeds the pool and
otherwise `random.sample`; without it, `random.choice` per position, which
raises `IndexError` on an empty pool (the class performs no empty-pool
check). -/
def pgRandomGenerate (cfg : RandomConfig) (s : Nat → Nat) : Except GenError (List Char) :=
  let chars := pgCharacters cfg
  if cfg.no_repeated_characters then
    if chars.length < cfg.length then Except.error GenError.insufficientPoolError
    else Except.ok (sampleGo ' ' chars cfg.length s 0)
  else
    if chars.length = 0 ∧ cfg.length ≠ 0 then Except.error GenError.indexError
    else Except.ok ((List.range cfg.length).map (fun i => chars.getD (s i % chars.length) ' '))

/-- The pool the `dasshboard.py` generator builds for a configuration. -/
def dbCharsOf (cfg : RandomConfig) : List Char :=
  dbChars cfg.include_uppercase cfg.include_lowercase cfg.include_numbers
    cfg.include_symbols cfg.exclude_similar

/-- `RandomPasswordGenerator.generate` of `dasshboard.py` lines 19-39: build the
pool, raise `ValueError` (`configError`) if it is empty, raise on a no-repeat
length above the pool size, then sample with or without repetition. -/
def dbRandomGenerate (cfg : RandomConfig) (s : Nat → Nat) : Except GenError (List Char) :=
  let chars := dbCharsOf cfg
  if chars.length = 0 then Except.error GenError.configError
  else if cfg.no_repeated_characters ∧ chars.length < cfg.length then
    Except.error GenError.insufficientPoolError
  else if cfg.no_repeated_characters then Except.ok (sampleGo ' ' chars cfg.length s 0)
  else Except.ok ((List.range cfg.length).map (fun i => chars.getD (s i % chars.length) ' '))

/-- Configuration of a memorable-password generator: the constructor arguments
shared by `MemorablePasswordGenerator` in both modules.  A word and the
separator are `List Char`; the vocabulary is an injected list of words. -/
structure MemConfig where
  no_of_words : Nat
  separator : List Char
  capitalization : Bool
  vocabulary : List (List Char)
  suffix_length : Nat
deriving DecidableEq

/-- Python `str.capitalize()` on an ASCII word: uppercase the first character,
lowercase the rest. -/
def pyCapitalize (w : List Char) : List Char :=
  match w with
  | [] => []
  | c :: rest => c.toUpper :: rest.map Char.toLower

/-- One `random.choice(string.digits)` draw, as used for numeric suffixes and
PIN digits: index `s k` modulo 10 into `"0123456789"`. -/
def digitDraw (s : Nat → Nat) (k : Nat) : Char :=
  digitsList.getD (s k % digitsList.length) ' '

/-- `MemorablePasswordGenerator.generate` of `password_generators.py` lines
86-102: pick `no_of_words` words by `rng.choice(self.vocabulary)` (with
replacement, no length filtering; `IndexError` if the vocabulary is empty and a
word is requested), capitalize each word when `capitalization` is set (and
leave the words untouched otherwise), join with the separator, and append
`suffix_length` random digits when `suffix_length > 0`. -/
def pgMemGenerate (cfg : MemConfig) (s : Nat → Nat) : Except GenError (List Char) :=
  if cfg.vocabulary.length = 0 ∧ 0 < cfg.no_of_words then Except.error GenError.indexError
  else
    let ws := (List.range cfg.no_of_words).map
      (fun i => cfg.vocabulary.getD (s i % cfg.vocabulary.length) [])
    let ws := if cfg.capitalization then ws.map pyCapitalize else ws
    let base := (ws.intersperse cfg.separator).flatten
    Except.ok (if 0 < cfg.suffix_length then
      base ++ (List.range cfg.suffix_length).map (fun j => digitDraw s (cfg.no_of_words + j))
    else base)

/-- The word-length filter of `dasshboard.py` line 50: keep words `w` with
`3 < len(w) < 8`. -/
def wordFilterOK (w : List Char) : Bool := 3 < w.length && w.length < 8

/-- The vocabulary `dasshboard.py` lines 50-52 actually sample from: the
filtered vocabulary, or the unfiltered one when the filter removed
everything. -/
def dbFilteredVocab (cfg : MemConfig) : List (List Char) :=
  let f := cfg.vocabulary.filter wordFilterOK
  if f.isEmpty then cfg.vocabulary else f

/-- The `random.sample(filtered_vocab, no_of_words)` call of `dasshboard.py`
line 54, as the list of selected words (meaningful when `no_of_words` is at
most the vocabulary size, the case in which `random.sample` does not raise). -/
def dbSelectedWords (cfg : MemConfig) (s : Nat → Nat) : List (List Char) :=
  sampleGo [] (dbFilteredVocab cfg) cfg.no_of_words s 0

/-- `MemorablePasswordGenerator.generate` of `dasshboard.py` lines 49-67:
filter the vocabulary (falling back to the unfiltered one when empty), sample
`no_of_words` distinct words without replacement (`random.sample` raises
`ValueError` — `insufficientVocabularyError` — when too few words exist),
capitalize or lowercase each word, join with the separator, and append
`suffix_length` random digits when `suffix_length > 0`. -/
def dbMemGenerate (cfg : MemConfig) (s : Nat → Nat) : Except GenError (List Char) :=
  if cfg.no_of_words ≤ (dbFilteredVocab cfg).length then
    let sel := dbSelectedWords cfg s
    let sel := if cfg.capitalization then sel.map pyCapitalize
      else sel.map (fun w => w.map Char.toLower)
    let base := (sel.intersperse cfg.separator).flatten
    Except.ok (if 0 < cfg.suffix_length then
      base ++ (List.range cfg.suffix_length).map (fun j => digitDraw s (cfg.no_of_words + j))
    else base)
  else Except.error GenError.insufficientVocabularyError

/-- The blocked set of `password_generators.py` line 117. -/
def blocked : List (List Char) :=
  [['1', '2', '3', '4'], ['0', '0', '0', '0'], ['1', '1', '1', '1'], ['2', '5', '8', '0']]

/-- `is_repeating` of `password_generators.py` lines 119-120:
`len(set(pin)) == 1`, i.e. the pin has exactly one distinct character. -/
def is_repeating (pin : List Char) : Bool := pin.dedup.length == 1

/-- `is_sequential` of `password_generators.py` lines 122-127: at least two
digits, and all adjacent differences equal to `1`, or all equal to `-1`. -/
def is_sequential (pin : List Char) : Bool :=
  if pin.length < 2 then false
  else
    let diffs := (List.range (pin.length - 1)).map
      (fun i => ((pin.getD (i + 1) '0').toNat : Int) - ((pin.getD i '0').toNat : Int))
    diffs.all (fun d => d == 1) || diffs.all (fun d => d == -1)

/-- One PIN candidate of `password_generators.py` line 131: `length` digit
draws; candidate number `t` consumes the stream positions
`t*length .. t*length+length-1`. -/
def drawPin (length : Nat) (s : Nat → Nat) (t : Nat) : List Char :=
  (List.range length).map (fun j => digitDraw s (t * length + j))

/-- The retry loop of `PinCodeGenerator.generate`, `password_generators.py`
lines 129-140: `t` is the index of the next candidate, the second argument the
remaining attempts.  Returns the outcome together with the number of
candidates drawn; rejects a candidate that is blocked, repeating or
sequential, and raises `pinExhaustionError` when the budget runs out. -/
def pinLoop (length : Nat) (s : Nat → Nat) : Nat → Nat → Except GenError (List Char) × Nat
  | _, 0 => (Except.error GenError.pinExhaustionError, 0)
  | t, rem + 1 =>
    let pin := drawPin length s t
    if pin ∈ blocked then
      let r := pinLoop length s (t + 1) rem
      (r.1, r.2 + 1)
    else if is_repeating pin then
      let r := pinLoop length s (t + 1) rem
      (r.1, r.2 + 1)
    else if is_sequential pin then
      let r := pinLoop length s (t + 1) rem
      (r.1, r.2 + 1)
    else (Except.ok pin, 1)

/-- `max_attempts` of `password_generators.py` line 129. -/
def max_attempts : Nat := 1000

/-- `PinCodeGenerator.generate` of `password_generators.py` lines 112-140,
together with the number of candidates it drew. -/
def pgPinRun (length : Nat) (s : Nat → Nat) : Except GenError (List Char) × Nat :=
  pinLoop length s 0 max_attempts

/-- The return value (or error) of `PinCodeGenerator.generate` in
`password_generators.py`. -/
def pgPinGenerate (length : Nat) (s : Nat → Nat) : Except GenError (List Char) :=
  (pgPinRun length s).1

/-- `PinCodeGenerator.generate` of `dasshboard.py` lines 73-74:
`random.choices(string.digits, k=length)` with no filtering and no retry. -/
def dbPinGenerate (length : Nat) (s : Nat → Nat) : List Char :=
  (List.range length).map (fun j => digitDraw s j)

/-- Python `c.isupper()` on the ASCII strings the program produces. -/
def pyIsUpper (c : Char) : Bool := 'A' ≤ c && c ≤ 'Z'

/-- Python `c.islower()` on ASCII. -/
def pyIsLower (c : Char) : Bool := 'a' ≤ c && c ≤ 'z'

/-- Python `c.isdigit()` on ASCII. -/
def pyIsDigit (c : Char) : Bool := '0' ≤ c && c ≤ '9'

/-- Python `c.isalnum()` on ASCII. -/
def pyIsAlnum (c : Char) : Bool := pyIsUpper c || pyIsLower c || pyIsDigit c

/-- Python's `round` (round half to even) applied to a quantity of `h` half
units, i.e. to the rational `h/2`.  Every float summed in `compute_strength`
is an exact multiple of `1/2` (`length_score` is `min(length-4,16)*2.5`,
`diversity_score` a multiple of `10`, `bonus` one of `0,10,20`), so the
program's float arithmetic is exact and this integer form is faithful. -/
def pyRoundHalf (h : Nat) : Nat :=
  if h % 2 = 0 then h / 2
  else if (h / 2) % 2 = 0 then h / 2 else h / 2 + 1

/-- The qualitative label `dasshboard.py` lines 131-134 derive from a score. -/
def labelOf (score : Nat) : String :=
  if score < 40 then "Weak"
  else if score < 60 then "Medium"
  else if score < 80 then "Strong"
  else "Very Strong"

/-- The half-unit total of `length_score + diversity_score + bonus` computed by
`compute_strength` (`dasshboard.py` lines 118-128) for a non-empty password. -/
def strengthHalves (pw : List Char) : Nat :=
  let hu := pw.any pyIsUpper
  let hl := pw.any pyIsLower
  let hd := pw.any pyIsDigit
  let hs := pw.any (fun c => !(pyIsAlnum c))
  let lengthHalves := if 4 < pw.length then min (pw.length - 4) 16 * 5 else 0
  let classes := (if hu then 1 else 0) + (if hl then 1 else 0)
    + (if hd then 1 else 0) + (if hs then 1 else 0)
  let bonusHalves := if hd && hs then 40 else if hd || hs then 20 else 0
  lengthHalves + classes * 20 + bonusHalves

/-- `compute_strength` of `dasshboard.py` lines 116-136: `(0, "Weak")` for the
empty string, otherwise `score = int(min(100, round(length_score +
diversity_score + bonus)))` followed by the threshold label. -/
def compute_strength (pw : List Char) : Nat × String :=
  if pw.isEmpty then (0, "Weak")
  else
    let score := min 100 (pyRoundHalf (strengthHalves pw))
    (score, labelOf score)

/-- Modelled from the claim's wording, to be compared with `compute_strength`:
`lengthScore` is `0` for length at most 4 and otherwise `min(length-4,16)/16*40`
(in half units, `min(length-4,16)*5`), `diversityScore` is the satisfied-class
count over 4 times 40 (in half units, `classes*20`), the bonus is 20 with both
a digit and a symbol, 10 with exactly one of the two and 0 otherwise, and the
score is the rounded sum clamped to `[0, 100]`. -/
def specScore (pw : List Char) : Nat :=
  let hd := pw.any pyIsDigit
  let hs := pw.any (fun c => !(pyIsAlnum c))
  let lengthHalves := if pw.length ≤ 4 then 0 else min (pw.length - 4) 16 * 5
  let satisfied := (if pw.any pyIsUpper then 1 else 0) + (if pw.any pyIsLower then 1 else 0)
    + (if hd then 1 else 0) + (if hs then 1 else 0)
  let bonusHalves := if hd = true ∧ hs = true then 40
    else if (hd = true ∧ hs = false) ∨ (hd = false ∧ hs = true) then 20 else 0
  Int.toNat (max 0 (min 100 ((pyRoundHalf (lengthHalves + satisfied * 20 + bonusHalves) : Int))))

/-- The scorer as the claim describes it: the clamped rounded score, and the
label from the same thresholds. -/
def strengthSpec (pw : List Char) : Nat × String :=
  (specScore pw, labelOf (specScore pw))

/-- The memorable configuration named by the spec's testable property:
4 words, separator `"-"`, capitalization on, vocabulary
`["apple", "banana", "kiwi"]`, suffix length 2. -/
def c5cfg : MemConfig :=
  ⟨4, ['-'], true, ["apple".toList, "banana".toList, "kiwi".toList], 2⟩

/-- The capitalized filtered vocabulary of `c5cfg`: the words the claimed
pattern allows. -/
def c5cap : List (List Char) := (c5cfg.vocabulary.filter wordFilterOK).map pyCapitalize

/-- A memorable configuration whose vocabulary holds one too-short word
(`"hi"`) next to one word (`"apple"`) inside the length filter. -/
def cfgTwoWords : MemConfig :=
  ⟨1, ['-'], false, ["hi".toList, "apple".toList], 0⟩

/-- A random-password configuration with no character class enabled and
repetition allowed. -/
def cfgNoFlags : RandomConfig := ⟨8, false, false, false, false, false, false⟩

/-- A no-repeat uppercase-only configuration of length 4. -/
def cfgUpper4 : RandomConfig := ⟨4, true, false, false, false, false, true⟩

/-- A no-repeat configuration of length 5 with no character class enabled. -/
def cfgNoFlagsNoRep : RandomConfig := ⟨5, false, false, false, false, false, true⟩

/-- A memorable configuration drawing 2 of the 3 `c5cfg` words. -/
def cfgTwoOfThree : MemConfig :=
  ⟨2, ['-'], true, ["apple".toList, "banana".toList, "kiwi".toList], 0⟩

/-- A helper stream: the k-th draw is `k * k`. -/
def squareStream : Nat → Nat := fun k => k * k

theorem getD_mem_of_lt {α : Type} (d : α) (l : List α) (i : Nat) (h : i < l.length) :
    l.getD i d ∈ l := by
  rw [List.getD_eq_getElem l d h]
  exact List.getElem_mem h

theorem getElem_not_mem_eraseIdx {α : Type} :
    ∀ (l : List α), l.Nodup → ∀ (i : Nat) (h : i < l.length), l[i] ∉ l.eraseIdx i
  | [], _, i, h => by simp at h
  | a :: l, hnd, 0, h => by
    simpa using (List.nodup_cons.mp hnd).1
  | a :: l, hnd, i + 1, h => by
    simp only [List.eraseIdx_cons_succ, List.getElem_cons_succ]
    intro hmem
    rcases List.mem_cons.mp hmem with heq | hmem2
    · exact (List.nodup_cons.mp hnd).1 (heq ▸ List.getElem_mem (by simpa using h))
    · exact getElem_not_mem_eraseIdx l (List.nodup_cons.mp hnd).2 i
        (by simpa using h) hmem2

theorem sampleGo_length {α : Type} (d : α) (str : Nat → Nat) :
    ∀ (k : Nat) (pool : List α) (i : Nat), k ≤ pool.length →
      (sampleGo d pool k str i).length = k
  | 0, pool, i, _ => rfl
  | k + 1, pool, i, hk => by
    have hpos : 0 < pool.length := by omega
    have hidx : str i % pool.length < pool.length := Nat.mod_lt _ hpos
    have herase : (pool.eraseIdx (str i % pool.length)).length = pool.length - 1 := by
      rw [List.length_eraseIdx]
      simp [hidx]
    simp only [sampleGo, List.length_cons]
    rw [sampleGo_length d str k (pool.eraseIdx (str i % pool.length)) (i + 1) (by omega)]

theorem sampleGo_subset {α : Type} (d : α) (str : Nat → Nat) :
    ∀ (k : Nat) (pool : List α) (i : Nat), k ≤ pool.length →
      ∀ x ∈ sampleGo d pool k str i, x ∈ pool
  | 0, pool, i, _, x, hx => by simp [sampleGo] at hx
  | k + 1, pool, i, hk, x, hx => by
    have hpos : 0 < pool.length := by omega
    have hidx : str i % pool.length < pool.length := Nat.mod_lt _ hpos
    have herase : (pool.eraseIdx (str i % pool.length)).length = pool.length - 1 := by
      rw [List.length_eraseIdx]
      simp [hidx]
    simp only [sampleGo, List.mem_cons] at hx
    rcases hx with rfl | hx
    · exact getD_mem_of_lt d pool _ hidx
    · exact (List.eraseIdx_sublist pool (str i % pool.length)).subset
        (sampleGo_subset d str k _ (i + 1) (by omega) x hx)

theorem sampleGo_nodup {α : Type} (d : α) (str : Nat → Nat) :
    ∀ (k : Nat) (pool : List α) (i : Nat), k ≤ pool.length → pool.Nodup →
      (sampleGo d pool k str i).Nodup
  | 0, _, _, _, _ => List.nodup_nil
  | k + 1, pool, i, hk, hnd => by
    have hpos : 0 < pool.length := by omega
    have hidx : str i % pool.length < pool.length := Nat.mod_lt _ hpos
    have herase : (pool.eraseIdx (str i % pool.length)).length = pool.length - 1 := by
      rw [List.length_eraseIdx]
      simp [hidx]
    simp only [sampleGo, List.nodup_cons]
    constructor
    · intro hmem
      have hsub := sampleGo_subset d str k _ (i + 1) (by omega) _ hmem
      rw [List.getD_eq_getElem pool d hidx] at hsub
      exact getElem_not_mem_eraseIdx pool hnd _ hidx hsub
    · exact sampleGo_nodup d str k _ (i + 1) (by omega)
        (List.Nodup.sublist (List.eraseIdx_sublist pool _) hnd)

theorem if_list_sublist {α : Type} (b : Bool) (l : List α) :
    (if b then l else []).Sublist l := by
  cases b
  · exact List.nil_sublist l
  · exact List.Sublist.refl l

theorem poolBase_sublist_full (u l d s : Bool) :
    (poolBase u l d s).Sublist (poolBase true true true true) := by
  unfold poolBase
  simp only [if_true]
  exact (((if_list_sublist u _).append (if_list_sublist l _)).append
    (if_list_sublist d _)).append (if_list_sublist s _)

theorem poolBase_full_nodup : (poolBase true true true true).Nodup := by decide

theorem pgPool_nodup (u l d s e : Bool) : (pgPool u l d s e).Nodup := by
  have hbase : (poolBase u l d s).Nodup :=
    List.Nodup.sublist (poolBase_sublist_full u l d s) poolBase_full_nodup
  unfold pgPool
  cases e
  · simpa using hbase
  · simpa using List.Nodup.sublist (List.filter_sublist _) hbase

theorem pgCharacters_nodup (cfg : RandomConfig) : (pgCharacters cfg).Nodup :=
  pgPool_nodup cfg.include_uppercase cfg.include_lowercase cfg.include_numbers
    cfg.include_symbols cfg.exclude_similar

theorem digitDraw_mem (s : Nat → Nat) (k : Nat) : digitDraw s k ∈ digitsList := by
  unfold digitDraw
  exact getD_mem_of_lt ' ' digitsList _ (Nat.mod_lt _ (by decide))

theorem drawPin_length (length : Nat) (s : Nat → Nat) (t : Nat) :
    (drawPin length s t).length = length := by
  simp [drawPin]

theorem drawPin_digits (length : Nat) (s : Nat → Nat) (t : Nat) :
    ∀ c ∈ drawPin length s t, c ∈ digitsList := by
  intro c hc
  simp only [drawPin, List.mem_map] at hc
  rcases hc with ⟨j, _, rfl⟩
  exact digitDraw_mem s _

theorem pinLoop_count_le (length : Nat) (s : Nat → Nat) :
    ∀ (f t : Nat), (pinLoop length s t f).2 ≤ f
  | 0, _ => Nat.le_refl 0
  | f + 1, t => by
    have ih := pinLoop_count_le length s f (t + 1)
    simp only [pinLoop]
    split_ifs
    · simpa using Nat.succ_le_succ ih
    · simpa using Nat.succ_le_succ ih
    · simpa using Nat.succ_le_succ ih
    · simp

theorem pinLoop_result (length : Nat) (s : Nat → Nat) :
    ∀ (f t : Nat),
      (∃ pin, (pinLoop length s t f).1 = Except.ok pin ∧ pin.length = length ∧
        (∀ c ∈ pin, c ∈ digitsList) ∧ pin ∉ blocked ∧ is_repeating pin = false ∧
        is_sequential pin = false) ∨
      (pinLoop length s t f).1 = Except.error GenError.pinExhaustionError
  | 0, _ => Or.inr rfl
  | f + 1, t => by
    simp only [pinLoop]
    split_ifs with h1 h2 h3
    · simpa using pinLoop_result length s f (t + 1)
    · simpa using pinLoop_result length s f (t + 1)
    · simpa using pinLoop_result length s f (t + 1)
    · simp only [Bool.not_eq_true] at h2 h3
      exact Or.inl ⟨drawPin length s t, rfl, drawPin_length length s t,
        drawPin_digits length s t, h1, h2, h3⟩

theorem singleton_not_mem_blocked (c : Char) : [c] ∉ blocked := by
  simp [blocked]

theorem is_repeating_singleton (c : Char) : is_repeating [c] = true := by
  simp [is_repeating]

theorem pinLoop_one_rejects (s : Nat → Nat) :
    ∀ (f t : Nat), pinLoop 1 s t f = (Except.error GenError.pinExhaustionError, f)
  | 0, _ => rfl
  | f + 1, t => by
    have hpin : drawPin 1 s t = [digitDraw s t] := by
      have h1 : List.range 1 = [0] := rfl
      simp [drawPin, h1]
    simp only [pinLoop, hpin]
    rw [if_neg (singleton_not_mem_blocked _), if_pos (is_repeating_singleton _)]
    rw [pinLoop_one_rejects s f (t + 1)]

/-- Claim C8: for every flag configuration, enabling `exclude_similar` removes
exactly the characters I, l, 1, O, 0 from the pool and nothing else (the pool
with exclusion is the order-preserving filter of the pool without exclusion by
non-membership in that five-character set); in particular the digits+uppercase
pool has size 36 without exclusion and 32 with it. -/
theorem C8_exclude_similar :
    (∀ u l d s : Bool, pgPool u l d s true =
      (pgPool u l d s false).filter (fun c => !(dashSimilar.contains c))) ∧
    (∀ u l d s : Bool, dbChars u l d s true =
      (dbChars u l d s false).filter (fun c => !(dashSimilar.contains c))) ∧
    (pgPool true false true false false).length = 36 ∧
    (pgPool true false true false true).length = 32 ∧
    (dbChars true false true false false).length = 36 ∧
    (dbChars true false true false true).length = 32 := by
  refine ⟨?_, ?_, by decide, by decide, by decide, by decide⟩
  · intro u l d s
    cases u <;> cases l <;> cases d <;> cases s <;> decide
  · intro u l d s
    cases u <;> cases l <;> cases d <;> cases s <;> decide

/-- Claim C10: for every combination of the four class flags and the
similar-character exclusion flag, the pool string built inside
`RandomPasswordGenerator.generate` of `dasshboard.py` equals, character for
character, the pool built in `RandomPasswordGenerator.__init__` of
`password_generators.py`. -/
theorem C10_pool_equivalence :
    ∀ u l d s e : Bool, dbChars u l d s e = pgPool u l d s e := by
  intro u l d s e
  cases u <;> cases l <;> cases d <;> cases s <;> cases e <;> decide

/-- Claim C9: the `password_generators.py` PIN generator with length 1 never
returns a value: every 1-digit candidate is rejected by the repeating-digit
test, so all 1000 attempts are drawn and rejected and the call raises the
exhaustion error, for every random stream. -/
theorem C9_pin_length_one (s : Nat → Nat) :
    pgPinGenerate 1 s = Except.error GenError.pinExhaustionError ∧
    (pgPinRun 1 s).2 = max_attempts := by
  have h := pinLoop_one_rejects s max_attempts 0
  constructor
  · show (pinLoop 1 s 0 max_attempts).1 = _
    rw [h]
  · show (pinLoop 1 s 0 max_attempts).2 = _
    rw [h]

/-- Claim C7: for every PIN configuration and every random stream, the
`password_generators.py` generator draws at most 1000 candidates and either
returns a string of exactly `length` decimal digits or fails with the
exhaustion error; the `dasshboard.py` generator returns a string of exactly
`length` decimal digits from its single draw. -/
theorem C7_pin_budget (length : Nat) (s : Nat → Nat) :
    ((pgPinRun length s).2 ≤ max_attempts ∧
      ((∃ pin, pgPinGenerate length s = Except.ok pin ∧ pin.length = length ∧
        ∀ c ∈ pin, c ∈ digitsList) ∨
       pgPinGenerate length s = Except.error GenError.pinExhaustionError)) ∧
    ((dbPinGenerate length s).length = length ∧
      ∀ c ∈ dbPinGenerate length s, c ∈ digitsList) := by
  refine ⟨⟨pinLoop_count_le length s max_attempts 0, ?_⟩, ?_, ?_⟩
  · rcases pinLoop_result length s max_attempts 0 with ⟨pin, h1, h2, h3, _, _, _⟩ | h
    · exact Or.inl ⟨pin, h1, h2, h3⟩
    · exact Or.inr h
  · simp [dbPinGenerate]
  · intro c hc
    simp only [dbPinGenerate, List.mem_map] at hc
    rcases hc with ⟨j, _, rfl⟩
    exact digitDraw_mem s j

/-- Claim C1 (amended): every value the `password_generators.py` PIN generator
returns is outside the blocked set, is not a single repeated digit and is not
a strictly by-1 monotonic digit sequence.  The `dasshboard.py` PIN generator
applies no such filtering (see the counterexample). -/
theorem C1_pin_policy (length : Nat) (s : Nat → Nat) (pin : List Char)
    (h : pgPinGenerate length s = Except.ok pin) :
    pin ∉ blocked ∧ is_repeating pin = false ∧ is_sequential pin = false := by
  have h' : (pinLoop length s 0 max_attempts).1 = Except.ok pin := h
  rcases pinLoop_result length s max_attempts 0 with ⟨pin2, h1, _, _, hb, hr, hsq⟩ | herr
  · rw [h1] at h'
    injection h' with he
    subst he
    exact ⟨hb, hr, hsq⟩
  · rw [herr] at h'
    exact absurd h' (by simp)

/-- Witness for C1: with the stream `k * k` the first candidate of a 4-digit
PIN is `"0149"`, which is returned and satisfies all three conditions. -/
theorem C1_pin_policy_witness :
    ['0', '1', '4', '9'] ∉ blocked ∧ is_repeating ['0', '1', '4', '9'] = false ∧
    is_sequential ['0', '1', '4', '9'] = false :=
  C1_pin_policy 4 squareStream ['0', '1', '4', '9'] (by rfl)

/-- Counterexample for C1 as stated: the `dasshboard.py` PIN generator, one of
the two cited `PinCodeGenerator.generate` implementations, returns the blocked
PIN `"1234"` on the stream `j + 1`. -/
theorem C1_dashboard_counterexample :
    dbPinGenerate 4 (fun j => j + 1) = ['1', '2', '3', '4'] ∧
    ['1', '2', '3', '4'] ∈ blocked := by
  exact ⟨by decide, by decide⟩

theorem foldl_filter_sublist (cs : List Char) :
    ∀ acc : List Char,
      (cs.foldl (fun a ch => a.filter (fun c => c != ch)) acc).Sublist acc := by
  induction cs with
  | nil => intro acc; exact List.Sublist.refl acc
  | cons c cs ih =>
    intro acc
    exact (ih (acc.filter (fun x => x != c))).trans (List.filter_sublist acc)

theorem dbChars_nodup (u l d s e : Bool) : (dbChars u l d s e).Nodup := by
  have hbase : (poolBase u l d s).Nodup :=
    List.Nodup.sublist (poolBase_sublist_full u l d s) poolBase_full_nodup
  unfold dbChars
  cases e
  · simpa using hbase
  · simpa using List.Nodup.sublist (foldl_filter_sublist dashSimilar _) hbase

theorem dbCharsOf_nodup (cfg : RandomConfig) : (dbCharsOf cfg).Nodup :=
  dbChars_nodup cfg.include_uppercase cfg.include_lowercase cfg.include_numbers
    cfg.include_symbols cfg.exclude_similar

/-- Claim C3 (amended): for every configuration with `no_repeated_characters`
and every stream, the `password_generators.py` generator returns, when the
requested length is at most the pool size, a string of exactly that length
whose characters are pairwise distinct and drawn from the pool, and fails with
the insufficient-pool error when the length exceeds the pool size; the
`dasshboard.py` generator does the same whenever its pool is non-empty, but on
an empty pool its empty-pool check takes precedence and it fails with the
configuration error instead (see the counterexample). -/
theorem C3_no_repeat_contract (cfg : RandomConfig) (s : Nat → Nat)
    (h : cfg.no_repeated_characters = true) :
    ((cfg.length ≤ (pgCharacters cfg).length →
      ∃ pw, pgRandomGenerate cfg s = Except.ok pw ∧ pw.length = cfg.length ∧
        pw.Nodup ∧ ∀ c ∈ pw, c ∈ pgCharacters cfg) ∧
    ((pgCharacters cfg).length < cfg.length →
      pgRandomGenerate cfg s = Except.error GenError.insufficientPoolError)) ∧
    (dbCharsOf cfg ≠ [] →
      (cfg.length ≤ (dbCharsOf cfg).length →
        ∃ pw, dbRandomGenerate cfg s = Except.ok pw ∧ pw.length = cfg.length ∧
          pw.Nodup ∧ ∀ c ∈ pw, c ∈ dbCharsOf cfg) ∧
      ((dbCharsOf cfg).length < cfg.length →
        dbRandomGenerate cfg s = Except.error GenError.insufficientPoolError)) := by
  refine ⟨⟨?_, ?_⟩, ?_⟩
  · intro hle
    refine ⟨sampleGo ' ' (pgCharacters cfg) cfg.length s 0, ?_, ?_, ?_, ?_⟩
    · simp only [pgRandomGenerate, h, if_true]
      rw [if_neg (by omega)]
    · exact sampleGo_length ' ' s cfg.length _ 0 hle
    · exact sampleGo_nodup ' ' s cfg.length _ 0 hle (pgCharacters_nodup cfg)
    · exact sampleGo_subset ' ' s cfg.length _ 0 hle
  · intro hlt
    simp only [pgRandomGenerate, h, if_true]
    rw [if_pos hlt]
  · intro hne
    have hlen0 : (dbCharsOf cfg).length ≠ 0 := by
      intro h0
      exact hne (List.length_eq_zero.mp h0)
    constructor
    · intro hle
      refine ⟨sampleGo ' ' (dbCharsOf cfg) cfg.length s 0, ?_, ?_, ?_, ?_⟩
      · simp only [dbRandomGenerate]
        rw [if_neg hlen0, if_neg (by simp [h]; omega), if_pos (by simp [h])]
      · exact sampleGo_length ' ' s cfg.length _ 0 hle
      · exact sampleGo_nodup ' ' s cfg.length _ 0 hle (dbCharsOf_nodup cfg)
      · exact sampleGo_subset ' ' s cfg.length _ 0 hle
    · intro hlt
      simp only [dbRandomGenerate]
      rw [if_neg hlen0, if_pos ⟨h, hlt⟩]

/-- Witness for C3: the no-repeat uppercase-only length-4 configuration with
the stream `k * k` succeeds with a duplicate-free pool word in both modules. -/
theorem C3_no_repeat_contract_witness :
    (∃ pw, pgRandomGenerate cfgUpper4 squareStream = Except.ok pw ∧
      pw.length = cfgUpper4.length ∧ pw.Nodup ∧ ∀ c ∈ pw, c ∈ pgCharacters cfgUpper4) ∧
    (∃ pw, dbRandomGenerate cfgUpper4 squareStream = Except.ok pw ∧
      pw.length = cfgUpper4.length ∧ pw.Nodup ∧ ∀ c ∈ pw, c ∈ dbCharsOf cfgUpper4) :=
  ⟨(C3_no_repeat_contract cfgUpper4 squareStream rfl).1.1 (by decide),
   ((C3_no_repeat_contract cfgUpper4 squareStream rfl).2 (by decide)).1 (by decide)⟩

/-- Counterexample for C3 as stated: a no-repeat configuration of length 5
with an empty pool makes the `dasshboard.py` generator (cited for this claim)
fail with the configuration error, not with the insufficient-pool error,
although the requested length exceeds the pool size. -/
theorem C3_dashboard_counterexample :
    cfgNoFlagsNoRep.no_repeated_characters = true ∧
    (dbCharsOf cfgNoFlagsNoRep).length < cfgNoFlagsNoRep.length ∧
    dbRandomGenerate cfgNoFlagsNoRep (fun k => k) = Except.error GenError.configError ∧
    GenError.configError ≠ GenError.insufficientPoolError :=
  ⟨rfl, by decide, by rfl, by decide⟩

/-- Claim C4 (amended): the `dasshboard.py` generator fails with the
configuration error, and with no other outcome, whenever its pool is empty;
the `password_generators.py` generator has no such check and fails differently
(see the counterexample). -/
theorem C4_empty_pool_config_error (cfg : RandomConfig) (s : Nat → Nat)
    (h : dbCharsOf cfg = []) :
    dbRandomGenerate cfg s = Except.error GenError.configError := by
  simp [dbRandomGenerate, h]

/-- Witness for C4: the flag-free configuration has an empty dashboard pool and
fails with the configuration error. -/
theorem C4_empty_pool_config_error_witness :
    dbRandomGenerate cfgNoFlags (fun k => k) = Except.error GenError.configError :=
  C4_empty_pool_config_error cfgNoFlags (fun k => k) (by decide)

/-- Counterexample for C4 as stated: with an empty pool the
`password_generators.py` generator (cited for this claim) fails with the
`IndexError` of `random.choice` on an empty sequence, not with the
configuration error. -/
theorem C4_pg_counterexample :
    pgRandomGenerate cfgNoFlags (fun k => k) = Except.error GenError.indexError ∧
    GenError.indexError ≠ GenError.configError :=
  ⟨by rfl, by decide⟩

theorem c5_word_mem (n : Nat) :
    pyCapitalize (c5cfg.vocabulary.getD (n % 3) []) ∈ c5cap := by
  have h : n % 3 = 0 ∨ n % 3 = 1 ∨ n % 3 = 2 := by omega
  rcases h with h | h | h <;> rw [h] <;> decide

/-- Claim C5 (amended): for the configuration 4 words, separator `"-"`,
capitalization, vocabulary `["apple","banana","kiwi"]`, suffix length 2, every
call of the `password_generators.py` generator produces
`Word-Word-Word-Word` followed by exactly two decimal digits, with each word
drawn (capitalized) from the filtered vocabulary.  The `dasshboard.py`
generator always fails on this configuration (see the counterexample). -/
theorem C5_memorable_shape (s : Nat → Nat) :
    ∃ w1 w2 w3 w4 d1 d2,
      pgMemGenerate c5cfg s =
        Except.ok (w1 ++ ('-' :: (w2 ++ ('-' :: (w3 ++ ('-' :: (w4 ++ [d1, d2]))))))) ∧
      w1 ∈ c5cap ∧ w2 ∈ c5cap ∧ w3 ∈ c5cap ∧ w4 ∈ c5cap ∧
      d1 ∈ digitsList ∧ d2 ∈ digitsList := by
  refine ⟨pyCapitalize (c5cfg.vocabulary.getD (s 0 % 3) []),
    pyCapitalize (c5cfg.vocabulary.getD (s 1 % 3) []),
    pyCapitalize (c5cfg.vocabulary.getD (s 2 % 3) []),
    pyCapitalize (c5cfg.vocabulary.getD (s 3 % 3) []),
    digitDraw s 4, digitDraw s 5, ?_,
    c5_word_mem (s 0), c5_word_mem (s 1), c5_word_mem (s 2), c5_word_mem (s 3),
    digitDraw_mem s 4, digitDraw_mem s 5⟩
  have hgen : pgMemGenerate c5cfg s =
      Except.ok ((([pyCapitalize (c5cfg.vocabulary.getD (s 0 % 3) []),
        pyCapitalize (c5cfg.vocabulary.getD (s 1 % 3) []),
        pyCapitalize (c5cfg.vocabulary.getD (s 2 % 3) []),
        pyCapitalize (c5cfg.vocabulary.getD (s 3 % 3) [])].intersperse ['-']).flatten)
        ++ [digitDraw s 4, digitDraw s 5]) := rfl
  rw [hgen]
  simp [List.intersperse, List.append_assoc]

/-- Counterexample for C5 as stated: the `dasshboard.py` generator (cited for
this claim) never produces a string on this configuration: it samples 4
distinct words without replacement from a 3-word vocabulary and fails. -/
theorem C5_dashboard_counterexample :
    dbMemGenerate c5cfg (fun k => k) = Except.error GenError.insufficientVocabularyError := by
  rfl

/-- Claim C6 (amended): the `dasshboard.py` generator samples words only from
the vocabulary restricted to lengths strictly between 3 and 8, falling back to
the unfiltered vocabulary exactly when that restriction is empty.  The
`password_generators.py` generator applies no filter (see the
counterexample). -/
theorem C6_dashboard_filter (cfg : MemConfig) (s : Nat → Nat)
    (h : cfg.no_of_words ≤ (dbFilteredVocab cfg).length) :
    (∀ w ∈ dbSelectedWords cfg s, w ∈ dbFilteredVocab cfg) ∧
    (cfg.vocabulary.filter wordFilterOK = [] → dbFilteredVocab cfg = cfg.vocabulary) ∧
    (cfg.vocabulary.filter wordFilterOK ≠ [] →
      dbFilteredVocab cfg = cfg.vocabulary.filter wordFilterOK) := by
  refine ⟨fun w hw => sampleGo_subset [] s cfg.no_of_words _ 0 h w hw, ?_, ?_⟩
  · intro he
    simp [dbFilteredVocab, he]
  · intro hne
    simp [dbFilteredVocab, List.isEmpty_iff, hne]

/-- Witness for C6: drawing 2 of the 3 words of the `c5cfg` vocabulary, every
selected word lies in the filtered vocabulary. -/
theorem C6_dashboard_filter_witness :
    (∀ w ∈ dbSelectedWords cfgTwoOfThree (fun k => k), w ∈ dbFilteredVocab cfgTwoOfThree) ∧
    (cfgTwoOfThree.vocabulary.filter wordFilterOK = [] →
      dbFilteredVocab cfgTwoOfThree = cfgTwoOfThree.vocabulary) ∧
    (cfgTwoOfThree.vocabulary.filter wordFilterOK ≠ [] →
      dbFilteredVocab cfgTwoOfThree = cfgTwoOfThree.vocabulary.filter wordFilterOK) :=
  C6_dashboard_filter cfgTwoOfThree (fun k => k) (by decide)

/-- Counterexample for C6 as stated: the `password_generators.py` generator
(cited for this claim) returns the word `"hi"`, outside the 4-7 length window,
although the filtered vocabulary (holding `"apple"`) is non-empty. -/
theorem C6_pg_counterexample :
    pgMemGenerate cfgTwoWords (fun k => k) = Except.ok ['h', 'i'] ∧
    cfgTwoWords.vocabulary.filter wordFilterOK ≠ [] ∧
    ['h', 'i'] ∉ cfgTwoWords.vocabulary.filter wordFilterOK :=
  ⟨by rfl, by decide, by decide⟩

theorem clampNat_eq (r : Nat) : Int.toNat (max 0 (min 100 (r : Int))) = min 100 r := by
  omega

theorem clampNat_eq2 (r : Nat) : Int.toNat (min 100 (r : Int)) = min 100 r := by
  omega

/-- Claim C2: for every input string the scorer returns the score of the
claimed formula (rounded sum of length score, diversity score and bonus,
clamped to the interval 0..100) together with the threshold label; that is,
`compute_strength` coincides with the claim-side `strengthSpec`. -/
theorem C2_strength_matches_spec (pw : List Char) :
    compute_strength pw = strengthSpec pw := by
  by_cases hpw : pw = []
  · subst hpw
    decide
  · have hne : pw.isEmpty = false := by
      cases pw
      · exact absurd rfl hpw
      · rfl
    unfold compute_strength strengthSpec specScore strengthHalves
    rw [hne]
    have hlen := Nat.lt_or_ge 4 pw.length
    cases hd : pw.any pyIsDigit <;>
      cases hsym : pw.any (fun c => !(pyIsAlnum c)) <;>
      rcases hlen with hlt | hge <;>
      first
        | (have h1 : ¬ pw.length ≤ 4 := by omega
           simp [h1, hlt, clampNat_eq, clampNat_eq2])
        | (have h1 : pw.length ≤ 4 := by omega
           have h2 : ¬ 4 < pw.length := by omega
           simp [h1, h2, clampNat_eq, clampNat_eq2])
